import Mathlib

/-!
Verification development for a credential-management core consisting of
an authentication manager (`auth.py`), an abstract storage contract with
an in-memory implementation and a SQLite-backed implementation
(`database.py`).  The Python source is shallowly embedded: pure helpers
become Lean functions, the stores become explicit state passing, the
current wall-clock time and the random salt source become explicit
parameters, and machine words are `Nat` with explicit `% 2 ^ 32`
masking.  Byte strings are `List Nat` with each byte below 256.
-/

namespace UserAuth

/-! ### SHA-256 (the digest used by `hashlib.sha256(...).hexdigest()`) -/

/-- 32-bit mask. -/
def M32 : Nat := 2 ^ 32

/-- Rotate a 32-bit word right by `n` bits. -/
def rotr32 (n x : Nat) : Nat := x / 2 ^ n + x % 2 ^ n * 2 ^ (32 - n)

/-- Bitwise complement on 32-bit words. -/
def not32 (x : Nat) : Nat := Nat.xor x (M32 - 1)

/-- Big sigma-0 of the SHA-256 compression function. -/
def bsig0 (x : Nat) : Nat := Nat.xor (Nat.xor (rotr32 2 x) (rotr32 13 x)) (rotr32 22 x)

/-- Big sigma-1 of the SHA-256 compression function. -/
def bsig1 (x : Nat) : Nat := Nat.xor (Nat.xor (rotr32 6 x) (rotr32 11 x)) (rotr32 25 x)

/-- Small sigma-0 of the SHA-256 message schedule. -/
def ssig0 (x : Nat) : Nat := Nat.xor (Nat.xor (rotr32 7 x) (rotr32 18 x)) (x / 2 ^ 3)

/-- Small sigma-1 of the SHA-256 message schedule. -/
def ssig1 (x : Nat) : Nat := Nat.xor (Nat.xor (rotr32 17 x) (rotr32 19 x)) (x / 2 ^ 10)

/-- The 64 SHA-256 round constants of FIPS 180-4, packed big-endian
into a single 2048-bit literal. -/
def kPacked : Nat :=
  0x428a2f9871374491b5c0fbcfe9b5dba53956c25b59f111f1923f82a4ab1c5ed5d807aa9812835b01243185be550c7dc372be5d7480deb1fe9bdc06a7c19bf174e49b69c1efbe47860fc19dc6240ca1cc2de92c6f4a7484aa5cb0a9dc76f988da983e5152a831c66db00327c8bf597fc7c6e00bf3d5a7914706ca63511429296727b70a852e1b21384d2c6dfc53380d13650a7354766a0abb81c2c92e92722c85a2bfe8a1a81a664bc24b8b70c76c51a3d192e819d6990624f40e3585106aa07019a4c1161e376c082748774c34b0bcb5391c0cb34ed8aa4a5b9cca4f682e6ff3748f82ee78a5636f84c878148cc7020890befffaa4506cebbef9a3f7c67178f2

/-- Split off `k` 32-bit words from the low end of a number, most
significant first. -/
def splitWords : Nat → Nat → List Nat
  | 0, _ => []
  | k + 1, n => splitWords k (n / M32) ++ [n % M32]

/-- The 64 SHA-256 round constants, the words of `kPacked`. -/
def K256 : List Nat := splitWords 64 kPacked

/-- Working state of the compression function: the eight 32-bit words. -/
structure H8 where
  h0 : Nat
  h1 : Nat
  h2 : Nat
  h3 : Nat
  h4 : Nat
  h5 : Nat
  h6 : Nat
  h7 : Nat
deriving Repr, DecidableEq

/-- SHA-256 initial hash value. -/
def initH : H8 :=
  ⟨0x6a09e667, 0xbb67ae85, 0x3c6ef372, 0xa54ff53a,
   0x510e527f, 0x9b05688c, 0x1f83d9ab, 0x5be0cd19⟩

/-- One SHA-256 round: consume one round constant paired with one
schedule word. -/
def sha256Round (st : H8) (kw : Nat × Nat) : H8 :=
  let a := st.h0; let b := st.h1; let c := st.h2; let d := st.h3
  let e := st.h4; let f := st.h5; let g := st.h6; let h := st.h7
  let s1 := bsig1 e
  let ch := Nat.xor (Nat.land e f) (Nat.land (not32 e) g)
  let temp1 := h + s1 + ch + kw.1 + kw.2
  let s0 := bsig0 a
  let maj := Nat.xor (Nat.xor (Nat.land a b) (Nat.land a c)) (Nat.land b c)
  let temp2 := s0 + maj
  ⟨(temp1 + temp2) % M32, a, b, c, (d + temp1) % M32, e, f, g⟩

/-- The first sixteen schedule words, read big-endian from a 64-byte
block. -/
def scheduleInit (block : List Nat) : List Nat :=
  (List.range 16).map fun i =>
    (block.getD (4 * i) 0 % 256 * 2 ^ 24 + block.getD (4 * i + 1) 0 % 256 * 2 ^ 16 +
     block.getD (4 * i + 2) 0 % 256 * 2 ^ 8 + block.getD (4 * i + 3) 0 % 256) % M32

/-- Extend the message schedule by one word. -/
def extendW (w : List Nat) : List Nat :=
  let n := w.length
  w ++ [(ssig1 (w.getD (n - 2) 0) + w.getD (n - 7) 0 +
         ssig0 (w.getD (n - 15) 0) + w.getD (n - 16) 0) % M32]

/-- The full 64-word message schedule of a block. -/
def schedule (block : List Nat) : List Nat :=
  (List.range 48).foldl (fun w _ => extendW w) (scheduleInit block)

/-- Compress one 64-byte block into the running hash state. -/
def compressBlock (st : H8) (block : List Nat) : H8 :=
  let w := schedule block
  let f := (K256.zip w).foldl sha256Round st
  ⟨(st.h0 + f.h0) % M32, (st.h1 + f.h1) % M32, (st.h2 + f.h2) % M32, (st.h3 + f.h3) % M32,
   (st.h4 + f.h4) % M32, (st.h5 + f.h5) % M32, (st.h6 + f.h6) % M32, (st.h7 + f.h7) % M32⟩

/-- SHA-256 padding: append `0x80`, zero bytes, then the bit length as
eight big-endian bytes, reaching a multiple of 64 bytes. -/
def padMsg (m : List Nat) : List Nat :=
  let l := m.length
  let k := (119 - l % 64) % 64
  m ++ [0x80] ++ List.replicate k 0 ++
    (List.range 8).map fun i => 8 * l / 2 ^ (8 * (7 - i)) % 256

/-- Split a byte list into 64-byte blocks (structural recursion on a
fuel bound so that the definition reduces in the kernel). -/
def toBlocksAux : Nat → List Nat → List (List Nat)
  | 0, _ => []
  | _, [] => []
  | fuel + 1, l => l.take 64 :: toBlocksAux fuel (l.drop 64)

/-- Split a byte list into 64-byte blocks. -/
def toBlocks (l : List Nat) : List (List Nat) := toBlocksAux l.length l

/-- The 256-bit SHA-256 digest of a byte string, as a natural number
(big-endian word order, matching the byte order of `hexdigest`). -/
def sha256Nat (m : List Nat) : Nat :=
  let f := (toBlocks (padMsg m)).foldl compressBlock initH
  [f.h0, f.h1, f.h2, f.h3, f.h4, f.h5, f.h6, f.h7].foldl
    (fun acc w => acc * M32 + w % M32) 0

/-- Lower-case hexadecimal digit. -/
def hexDigit (n : Nat) : Char := "0123456789abcdef".toList.getD n '0'

/-- Render a natural number as `k` big-endian hexadecimal digits. -/
def natToHex (k n : Nat) : String :=
  String.mk ((List.range k).map fun i => hexDigit (n / 16 ^ (k - 1 - i) % 16))

/-- `hashlib.sha256(m).hexdigest()`: the digest as 64 lower-case hex
characters. -/
def sha256hex (m : List Nat) : String := natToHex 64 (sha256Nat m)

/-! ### PasswordHasher (`AuthManager._hash_password` / `_verify_password`,
identical code in `DatabaseManager`)

Passwords and salts are Python strings; `str.encode()` is UTF-8, which on
the ASCII strings appearing throughout (hex salts, hex digests, the
claims' concrete passwords) sends each character to its code point. -/

/-- UTF-8 bytes of an ASCII string (code points of the characters). -/
def strBytes (s : String) : List Nat := s.data.map Char.toNat

/-- `_hash_password`: the random `secrets.token_hex(16)` salt is an
explicit parameter; returns `(salt, hashed)` where the digest is the
hex-encoded SHA-256 of `password + salt`. -/
def hash_password (password salt : String) : String × String :=
  (salt, sha256hex (strBytes (password ++ salt)))

/-- `_verify_password`: recompute the digest of `password + stored_salt`
and compare for exact equality. -/
def verify_password (password stored_hash stored_salt : String) : Bool :=
  sha256hex (strBytes (password ++ stored_salt)) == stored_hash

/-! ### Validator (`AuthManager._validate_username`, `_validate_password`,
`_validate_login_input`; `DatabaseManager._is_valid_email`) -/

/-- ASCII upper-case letter, the character class `[A-Z]`. -/
def isUpperAZ (c : Char) : Bool := 'A' ≤ c && c ≤ 'Z'

/-- ASCII lower-case letter, the character class `[a-z]`. -/
def isLowerAZ (c : Char) : Bool := 'a' ≤ c && c ≤ 'z'

/-- The literal character class `[0-9]`, as it appears in the username
and email patterns. -/
def isDigit09 (c : Char) : Bool := '0' ≤ c && c ≤ '9'

/-- The code points matched by Python `\d` on a `str`: the Unicode
decimal digits (category Nd), as ranges, generated from the regex
engine itself (CPython, Unicode 14.0 data). -/
def ndRanges : List (Nat × Nat) :=
  [(0x30, 0x39), (0x660, 0x669), (0x6f0, 0x6f9), (0x7c0, 0x7c9),
   (0x966, 0x96f), (0x9e6, 0x9ef), (0xa66, 0xa6f), (0xae6, 0xaef),
   (0xb66, 0xb6f), (0xbe6, 0xbef), (0xc66, 0xc6f), (0xce6, 0xcef),
   (0xd66, 0xd6f), (0xde6, 0xdef), (0xe50, 0xe59), (0xed0, 0xed9),
   (0xf20, 0xf29), (0x1040, 0x1049), (0x1090, 0x1099), (0x17e0, 0x17e9),
   (0x1810, 0x1819), (0x1946, 0x194f), (0x19d0, 0x19d9), (0x1a80, 0x1a89),
   (0x1a90, 0x1a99), (0x1b50, 0x1b59), (0x1bb0, 0x1bb9), (0x1c40, 0x1c49),
   (0x1c50, 0x1c59), (0xa620, 0xa629), (0xa8d0, 0xa8d9), (0xa900, 0xa909),
   (0xa9d0, 0xa9d9), (0xa9f0, 0xa9f9), (0xaa50, 0xaa59), (0xabf0, 0xabf9),
   (0xff10, 0xff19), (0x104a0, 0x104a9), (0x10d30, 0x10d39), (0x11066, 0x1106f),
   (0x110f0, 0x110f9), (0x11136, 0x1113f), (0x111d0, 0x111d9), (0x112f0, 0x112f9),
   (0x11450, 0x11459), (0x114d0, 0x114d9), (0x11650, 0x11659), (0x116c0, 0x116c9),
   (0x11730, 0x11739), (0x118e0, 0x118e9), (0x11950, 0x11959), (0x11c50, 0x11c59),
   (0x11d50, 0x11d59), (0x11da0, 0x11da9), (0x16a60, 0x16a69), (0x16ac0, 0x16ac9),
   (0x16b50, 0x16b59), (0x1d7ce, 0x1d7ff), (0x1e140, 0x1e149), (0x1e2f0, 0x1e2f9),
   (0x1e950, 0x1e959), (0x1fbf0, 0x1fbf9)]

/-- The character class `\d` of `re.search(r'\d', password)`: ASCII
`[0-9]` plus every non-ASCII Unicode decimal digit. -/
def isDigitRe (c : Char) : Bool :=
  ndRanges.any fun r => r.1 ≤ c.toNat && c.toNat ≤ r.2

/-- The character class `[a-zA-Z0-9_]` of the username pattern. -/
def isWordChar (c : Char) : Bool := isUpperAZ c || isLowerAZ c || isDigit09 c || c == '_'

/-- `re.match(r'^[a-zA-Z0-9_]+$', s)`: a nonempty run of word characters,
optionally followed by one final newline (Python `$` also matches just
before a trailing newline). -/
def matchWordLine (l : List Char) : Bool :=
  (!l.isEmpty && l.all isWordChar) ||
  (l.getLast? == some '\n' && !l.dropLast.isEmpty && l.dropLast.all isWordChar)

/-- `AuthManager._validate_username`. -/
def validate_username (username : String) : Bool :=
  !username.isEmpty && 3 ≤ username.length && username.length ≤ 50 &&
    matchWordLine username.data

/-- Result of `_validate_password`: the `{'valid': ..., 'message': ...}`
dictionary. -/
structure PasswordValidation where
  valid : Bool
  message : String
deriving Repr, DecidableEq

/-- `AuthManager._validate_password`: the cascade of checks, in source
order, returning the first failure. -/
def validate_password (password : String) : PasswordValidation :=
  if password.length == 0 then ⟨false, "Password is required"⟩
  else if password.length < 8 then
    ⟨false, "Password must be at least 8 characters long"⟩
  else if password.length > 128 then
    ⟨false, "Password must be no more than 128 characters long"⟩
  else if !password.data.any isUpperAZ then
    ⟨false, "Password must contain at least one uppercase letter"⟩
  else if !password.data.any isLowerAZ then
    ⟨false, "Password must contain at least one lowercase letter"⟩
  else if !password.data.any isDigitRe then
    ⟨false, "Password must contain at least one number"⟩
  else ⟨true, "Password is strong"⟩

/-- `AuthManager._validate_login_input`. -/
def validate_login_input (username password : String) : Bool :=
  validate_username username && (validate_password password).valid

/-- `DatabaseManager._is_valid_email`: the pattern
`^[a-zA-Z0-9._%+-]+@[a-zA-Z0-9.-]+\.[a-zA-Z]{2,}$`.  The only split of
the domain that can match puts the last dot before the final all-letter
segment. -/
def is_valid_email (email : String) : Bool :=
  match email.splitOn "@" with
  | [localPart, domain] =>
    let domChars := if domain.data.getLast? == some '\n' then domain.data.dropLast
                    else domain.data
    let tld := (domChars.reverse.takeWhile fun c => isUpperAZ c || isLowerAZ c).reverse
    let body := domChars.take (domChars.length - tld.length)
    !localPart.isEmpty &&
      localPart.data.all (fun c => isWordChar c || c == '.' || c == '%' || c == '+' || c == '-') &&
      2 ≤ tld.length && body.getLast? == some '.' &&
      !body.dropLast.isEmpty &&
      body.dropLast.all (fun c => isUpperAZ c || isLowerAZ c || isDigit09 c || c == '.' || c == '-')
  | _ => false

/-! ### Python values and dictionaries

The stores traffic in Python dictionaries; they are embedded as ordered
association lists over a small value type (`None`, strings, integers,
booleans cover every value the modules store). -/

/-- A Python value. -/
inductive Val where
  | null : Val
  | s : String → Val
  | n : Nat → Val
  | b : Bool → Val
deriving Repr, DecidableEq

/-- Python truthiness of a value, as used by `if x:` and `bool(x)`. -/
def truthy : Val → Bool
  | .null => false
  | .s v => !v.isEmpty
  | .n v => v != 0
  | .b v => v

/-- A Python dictionary in insertion order. -/
abbrev Dict := List (String × Val)

/-- `d.get(k)`. -/
def dget (d : Dict) (k : String) : Option Val :=
  (List.find? (fun p => p.1 == k) d).map Prod.snd

/-- `k in d`. -/
def dhas (d : Dict) (k : String) : Bool := (dget d k).isSome

/-- `d[k] = v`: replace the value in place, or append a new entry. -/
def dset (d : Dict) (k : String) (v : Val) : Dict :=
  if dhas d k then List.map (fun p => if p.1 == k then (k, v) else p) d
  else d ++ [(k, v)]

/-! ### The SQLite-backed store (`DatabaseManager`)

A row of the `users` table.  Timestamps (ISO-8601 strings produced by
`datetime.now().isoformat()` and compared via `datetime.fromisoformat`)
are embedded as naturals with their chronological order; the wall-clock
reading `datetime.now()` is an explicit `now` parameter.  `email` keeps
the raw stored value (the column has no type constraint).  Rows model
well-typed data as produced by the modules themselves: `username`,
`password_hash` and `salt` are the `TEXT NOT NULL` columns. -/
structure Account where
  id : Nat
  username : String
  password_hash : String
  salt : String
  email : Option Val
  created_at : Nat
  updated_at : Option Nat
  last_login : Option Nat
  is_active : Bool
  failed_login_attempts : Nat
  account_locked_until : Option Nat
deriving Repr, DecidableEq

/-- The database: the `users` table plus the `AUTOINCREMENT` counter. -/
structure DBState where
  rows : List Account
  next_id : Nat
deriving Repr, DecidableEq

/-- `DatabaseManager.get_user`: `SELECT ... WHERE username = ?`
(`username` is `UNIQUE`; `fetchone` returns the first row). -/
def db_get_user (st : DBState) (username : String) : Option Account :=
  st.rows.find? fun a => a.username == username

/-- `DatabaseManager.user_exists`. -/
def db_user_exists (st : DBState) (username : String) : Bool :=
  (db_get_user st username).isSome

/-- `UPDATE users SET ... WHERE id = ?`: apply `g` to every row whose
`id` matches. -/
def db_apply (st : DBState) (i : Nat) (g : Account → Account) : DBState :=
  { st with rows := st.rows.map fun a => if a.id == i then g a else a }

/-- The row dictionary built by `DatabaseManager.get_user` (lines
412-424), key order as in the source. -/
def accountDict (a : Account) : Dict :=
  [("id", .n a.id), ("username", .s a.username),
   ("password_hash", .s a.password_hash), ("salt", .s a.salt),
   ("email", a.email.getD .null), ("created_at", .n a.created_at),
   ("updated_at", (a.updated_at.map Val.n).getD .null),
   ("last_login", (a.last_login.map Val.n).getD .null),
   ("is_active", .b a.is_active),
   ("failed_login_attempts", .n a.failed_login_attempts),
   ("account_locked_until", (a.account_locked_until.map Val.n).getD .null)]

/-- `DatabaseManager._validate_user_input`, with `username` and
`password` as the raw dictionary values.  A non-string value makes
`len()` raise `TypeError`, which `create_user`'s blanket handler turns
into `False`; the embedding folds that path into a failed validation. -/
def db_validate_user_input (username password email : Option Val) : Bool :=
  match username with
  | some (.s u) =>
    if u.isEmpty || u.length < 3 || u.length > 50 then false
    else match password with
      | some (.s p) =>
        if p.isEmpty || p.length < 8 then false
        else match email with
          | none => true
          | some v =>
            if truthy v then
              match v with
              | .s e => is_valid_email e
              | _ => false
            else true
      | _ => false
  | _ => false

/-- `DatabaseManager._increment_failed_login_attempts`:
`SET failed_login_attempts = failed_login_attempts + 1`. -/
def increment_failed (a : Account) : Account :=
  { a with failed_login_attempts := a.failed_login_attempts + 1 }

/-- `DatabaseManager._reset_failed_login_attempts`:
`SET failed_login_attempts = 0, account_locked_until = NULL`. -/
def reset_failed (a : Account) : Account :=
  { a with failed_login_attempts := 0, account_locked_until := none }

/-- `DatabaseManager._update_last_login`: `SET last_login = ?` with the
current timestamp. -/
def set_last_login (now : Nat) (a : Account) : Account :=
  { a with last_login := some now }

/-- `DatabaseManager.create_user` (lines 255-316).  `now` stands for
`_get_current_timestamp()` and `freshSalt` for the random salt drawn
when the dictionary carries a plain `password` and no `password_hash`.
Exceptions (`KeyError` on a missing `salt`, `sqlite3.IntegrityError` on
a duplicate `email`) are caught by the source and become `False`. -/
def db_create_user (st : DBState) (d : Dict) (now : Nat) (freshSalt : String) :
    Bool × DBState :=
  let username := dget d "username"
  let password := dget d "password"
  let email := dget d "email"
  if !db_validate_user_input username password email then (false, st)
  else match username with
    | some (.s u) =>
      if db_user_exists st u then (false, st)
      else
        let d1 := if !dhas d "password_hash" then
            match password with
            | some (.s p) =>
              let (slt, hpw) := hash_password p freshSalt
              dset (dset d "password_hash" (.s hpw)) "salt" (.s slt)
            | _ => d
          else d
        let d2 := if !dhas d1 "created_at" then dset d1 "created_at" (.n now) else d1
        match dget d2 "password_hash", dget d2 "salt", dget d2 "created_at" with
        | some (.s ph), some (.s slt), some (.n ca) =>
          let em := dget d2 "email"
          if em.isSome && em != some .null &&
              st.rows.any (fun r => r.email == em) then (false, st)
          else
            (true, { rows := st.rows ++
                       [{ id := st.next_id, username := u, password_hash := ph,
                          salt := slt, email := if em == some .null then none else em,
                          created_at := ca, updated_at := none, last_login := none,
                          is_active := true, failed_login_attempts := 0,
                          account_locked_until := none }],
                     next_id := st.next_id + 1 })
        | _, _, _ => (false, st)
    | _ => (false, st)

/-- The `authenticate_user` lock test: `account_locked_until` present
and `datetime.now() < lock_time`. -/
def locked (a : Account) (now : Nat) : Bool :=
  match a.account_locked_until with
  | some t => now < t
  | none => false

/-- Enumeration `DatabaseResultType`. -/
inductive DatabaseResultType where
  | success | user_exists | user_not_found | database_error
  | connection_error | validation_error | hashing_error
deriving Repr, DecidableEq

/-- The `DatabaseResult` dataclass. -/
structure DatabaseResult where
  success : Bool
  message : String
  result_type : DatabaseResultType
  data : Option Dict
  error_details : Option String
deriving Repr, DecidableEq

/-- `DatabaseManager.authenticate_user` (lines 318-389): not-found,
lock check (skipping password verification while locked), then password
verification with the counter reset / last-login update on a match and
the counter increment on a mismatch. -/
def db_authenticate_user (st : DBState) (username password : String) (now : Nat) :
    DatabaseResult × DBState :=
  match db_get_user st username with
  | none => (⟨false, "User not found", .user_not_found, none, none⟩, st)
  | some user =>
    if locked user now then
      (⟨false, "Account is temporarily locked", .validation_error, none, none⟩, st)
    else if verify_password password user.password_hash user.salt then
      let st1 := db_apply st user.id reset_failed
      let st2 := db_apply st1 user.id (set_last_login now)
      (⟨true, "Authentication successful", .success,
        some [("user_id", .n user.id), ("username", .s user.username)], none⟩, st2)
    else
      (⟨false, "Invalid credentials", .validation_error, none, none⟩,
       db_apply st user.id increment_failed)

/-- One step of `DatabaseManager.update_user`'s field loop: the setters
accumulated for a recognized field, in iteration order.  `none` models
the `TypeError` raised when a non-string `password` reaches
`_hash_password` (caught by the source, aborting the whole update). -/
def db_update_setters (freshSalt : String) : Dict → Option (List (Account → Account))
  | [] => some []
  | (k, v) :: rest =>
    if k == "email" then
      (db_update_setters freshSalt rest).map fun fs =>
        (fun a => { a with email := some v }) :: fs
    else if k == "is_active" then
      (db_update_setters freshSalt rest).map fun fs =>
        (fun a => { a with is_active := truthy v }) :: fs
    else if k == "password" then
      match v with
      | .s p =>
        (db_update_setters freshSalt rest).map fun fs =>
          (fun a =>
            { a with password_hash := (hash_password p freshSalt).2,
                     salt := freshSalt }) :: fs
      | _ => none
    else db_update_setters freshSalt rest

/-- `DatabaseManager.update_user` (lines 478-533): unknown username and
an empty recognized-field list return `False`; otherwise the recognized
fields and `updated_at` are applied to the fetched row. -/
def db_update_user (st : DBState) (username : String) (d : Dict) (now : Nat)
    (freshSalt : String) : Bool × DBState :=
  match db_get_user st username with
  | none => (false, st)
  | some user =>
    match db_update_setters freshSalt d with
    | none => (false, st)
    | some fs =>
      if fs.isEmpty then (false, st)
      else
        (true, db_apply st user.id fun a =>
          { fs.foldl (fun acc f => f acc) a with updated_at := some now })

/-- `DatabaseManager.delete_user`: fetch the row, then
`DELETE FROM users WHERE id = ?`. -/
def db_delete_user (st : DBState) (username : String) : Bool × DBState :=
  match db_get_user st username with
  | none => (false, st)
  | some user =>
    (true, { st with rows := st.rows.filter fun a => !(a.id == user.id) })

/-! ### The in-memory store (`InMemoryStorageManager`)

`self._users` is a dictionary from usernames (any hashable key, here the
`username` value of the stored dictionary) to user-data dictionaries. -/

/-- The in-memory store state, in insertion order. -/
abbrev MemState := List (Val × Dict)

/-- Key lookup in `self._users`. -/
def mem_lookup (st : MemState) (k : Val) : Option Dict :=
  (st.find? fun p => p.1 == k).map Prod.snd

/-- `InMemoryStorageManager.create_user`: a missing `username` key is a
`KeyError`, caught and turned into `False`. -/
def mem_create_user (st : MemState) (d : Dict) : Bool × MemState :=
  match dget d "username" with
  | none => (false, st)
  | some k => if (mem_lookup st k).isSome then (false, st) else (true, st ++ [(k, d)])

/-- `InMemoryStorageManager.get_user`. -/
def mem_get_user (st : MemState) (username : String) : Option Dict :=
  mem_lookup st (.s username)

/-- `InMemoryStorageManager.user_exists`. -/
def mem_user_exists (st : MemState) (username : String) : Bool :=
  (mem_lookup st (.s username)).isSome

/-- `InMemoryStorageManager.update_user`: unconditionally replaces the
stored dictionary with a copy of the argument. -/
def mem_update_user (st : MemState) (username : String) (d : Dict) : Bool × MemState :=
  if (mem_lookup st (.s username)).isSome then
    (true, st.map fun p => if p.1 == Val.s username then (p.1, d) else p)
  else (false, st)

/-- `InMemoryStorageManager.delete_user`. -/
def mem_delete_user (st : MemState) (username : String) : Bool × MemState :=
  if (mem_lookup st (.s username)).isSome then
    (true, st.filter fun p => !(p.1 == Val.s username))
  else (false, st)

/-! ### `AuthManager` (`auth.py`), composed with the SQLite store as in
`flask_app.py` / the repository's tests -/

/-- Enumeration `AuthResultType`. -/
inductive AuthResultType where
  | success | user_exists | user_not_found | invalid_credentials
  | invalid_input | weak_password | invalid_username
deriving Repr, DecidableEq

/-- The `AuthResult` dataclass. -/
structure AuthResult where
  success : Bool
  message : String
  result_type : AuthResultType
  user_data : Option Dict
deriving Repr, DecidableEq

/-- `AuthManager.register_user` (lines 58-107) over the SQLite store:
validate, check existence, hash, then call `storage.create_user` —
whose boolean result the source discards.  `DatabaseManager.create_user`
catches every exception internally, so the `except` branch of
`register_user` is unreachable and the embedding omits it. -/
def auth_register_user (st : DBState) (username password : String) (now : Nat)
    (freshSalt : String) : AuthResult × DBState :=
  if !validate_username username then
    (⟨false,
      "Username must be 3-50 characters and contain only letters, numbers, and underscores",
      .invalid_username, none⟩, st)
  else
    let pv := validate_password password
    if !pv.valid then (⟨false, pv.message, .weak_password, none⟩, st)
    else if db_user_exists st username then
      (⟨false, "User already exists", .user_exists, none⟩, st)
    else
      let (salt, hashed) := hash_password password freshSalt
      let d : Dict := [("username", .s username), ("password_hash", .s hashed),
                       ("salt", .s salt), ("created_at", .n now)]
      let res := db_create_user st d now freshSalt
      (⟨true, "User registered successfully", .success,
        some [("username", .s username)]⟩, res.2)

/-- `AuthManager.login_user` (lines 109-150) over the SQLite store: it
reads the stored record and verifies the password but performs no
mutation (no counter, no lock, no `last_login`). -/
def auth_login_user (st : DBState) (username password : String) : AuthResult :=
  if !validate_login_input username password then
    (⟨false, "Invalid input provided", .invalid_input, none⟩)
  else match db_get_user st username with
    | none => ⟨false, "User not found", .user_not_found, none⟩
    | some a =>
      if verify_password password a.password_hash a.salt then
        ⟨true, "Login successful", .success, some [("username", .s username)]⟩
      else ⟨false, "Invalid credentials", .invalid_credentials, none⟩

/-- `AuthManager.get_user_data` (lines 152-188) over the SQLite store:
the safe view keeps `username` and `created_at` only. -/
def auth_get_user_data (st : DBState) (username : String) : AuthResult :=
  if !validate_username username then
    ⟨false, "Invalid username format", .invalid_username, none⟩
  else match db_get_user st username with
    | none => ⟨false, "User not found", .user_not_found, none⟩
    | some a =>
      let d := accountDict a
      ⟨true, "User data retrieved successfully", .success,
       some [("username", (dget d "username").getD .null),
             ("created_at", (dget d "created_at").getD (.s "Unknown"))]⟩

/-! ### Specification-side description of the password rules

For the refinement claim about `validate_password` the specification's
rule order is written down independently of the code: six rules, checked
in the order missing/empty, too short, too long, missing uppercase,
missing lowercase, missing digit; the reported reason is the first rule
violated. -/

/-- The password rules named by the specification. -/
inductive PwRule where
  | missing | tooShort | tooLong | noUpper | noLower | noDigit
deriving Repr, DecidableEq

/-- Whether a password violates one rule. -/
def pwViolates (s : String) : PwRule → Bool
  | .missing => decide (s.length = 0)
  | .tooShort => decide (s.length < 8)
  | .tooLong => decide (128 < s.length)
  | .noUpper => !s.data.any isUpperAZ
  | .noLower => !s.data.any isLowerAZ
  | .noDigit => !s.data.any isDigitRe

/-- The first violated rule in the specification's order, if any. -/
def specFirstViolation (s : String) : Option PwRule :=
  ([.missing, .tooShort, .tooLong, .noUpper, .noLower, .noDigit] : List PwRule).find?
    (pwViolates s)

/-- The message the code reports for each rule. -/
def specRuleMessage : PwRule → String
  | .missing => "Password is required"
  | .tooShort => "Password must be at least 8 characters long"
  | .tooLong => "Password must be no more than 128 characters long"
  | .noUpper => "Password must contain at least one uppercase letter"
  | .noLower => "Password must contain at least one lowercase letter"
  | .noDigit => "Password must contain at least one number"

/-! ### Iteration of failed logins, and concrete fixtures -/

/-- `n` consecutive `authenticate_user` calls with the same (wrong)
password. -/
def auth_iter (u pw : String) (now : Nat) : Nat → DBState → DBState
  | 0, st => st
  | Nat.succ n, st => auth_iter u pw now n (db_authenticate_user st u pw now).2

/-- A freshly registered, unlocked, active account with password
`SecurePass1` hashed against salt `f00d`. -/
def aliceAcct : Account :=
  { id := 1, username := "alice",
    password_hash := (hash_password "SecurePass1" "f00d").2, salt := "f00d",
    email := none, created_at := 10, updated_at := none, last_login := none,
    is_active := true, failed_login_attempts := 0, account_locked_until := none }

/-- A store holding only `aliceAcct`. -/
def aliceSt : DBState := ⟨[aliceAcct], 2⟩

/-- An account whose `account_locked_until` lies in the future. -/
def lockedAcct : Account :=
  { id := 3, username := "bob", password_hash := "deadbeef", salt := "beef",
    email := none, created_at := 10, updated_at := none, last_login := none,
    is_active := true, failed_login_attempts := 4,
    account_locked_until := some 100 }

/-- A store holding only `lockedAcct`. -/
def lockedSt : DBState := ⟨[lockedAcct], 4⟩

/-- A soft-deleted (`is_active = false`) account with password
`SecurePass1` hashed against salt `0ff1`. -/
def inactiveAcct : Account :=
  { id := 5, username := "carol",
    password_hash := (hash_password "SecurePass1" "0ff1").2, salt := "0ff1",
    email := none, created_at := 10, updated_at := none, last_login := none,
    is_active := false, failed_login_attempts := 0, account_locked_until := none }

/-- A store holding only `inactiveAcct`. -/
def inactiveSt : DBState := ⟨[inactiveAcct], 6⟩

/-- An account with every optional profile field populated. -/
def profileAcct : Account :=
  { id := 7, username := "dave", password_hash := "cafe", salt := "1234",
    email := some (.s "dave@example.com"), created_at := 20,
    updated_at := some 25, last_login := some 30, is_active := true,
    failed_login_attempts := 2, account_locked_until := none }

/-- A store holding only `profileAcct`. -/
def profileSt : DBState := ⟨[profileAcct], 8⟩

/-- `aliceAcct` after three failures with an already-expired lock. -/
def aliceExpiredAcct : Account :=
  { aliceAcct with account_locked_until := some 40, failed_login_attempts := 3 }

/-- A store holding only `aliceExpiredAcct`. -/
def aliceExpiredSt : DBState := ⟨[aliceExpiredAcct], 2⟩

/-- The empty database. -/
def emptySt : DBState := ⟨[], 1⟩

/-- An in-memory store holding a registered `alice` record. -/
def memAliceSt : MemState :=
  [(.s "alice",
    [("username", .s "alice"), ("password_hash", .s "cafe"), ("salt", .s "1234"),
     ("created_at", .n 10)])]

/-! ### Helper lemmas about the store operations -/

/-- `db_apply` commutes with `db_get_user` when the row transformation
preserves usernames: the looked-up row is transformed pointwise. -/
theorem db_get_user_db_apply (st : DBState) (i : Nat) (g : Account → Account)
    (hg : ∀ r, (g r).username = r.username) (u : String) :
    db_get_user (db_apply st i g) u =
      (db_get_user st u).map fun r => if r.id == i then g r else r := by
  show List.find? _ (st.rows.map _) = _
  rw [List.find?_map]
  have hp : ((fun a : Account => a.username == u) ∘
        fun a : Account => if (a.id == i) = true then g a else a) =
      fun a : Account => a.username == u := by
    funext r
    by_cases h : r.id == i <;> simp [Function.comp, h, hg]
  rw [hp]
  rfl

theorem reset_failed_username (a : Account) : (reset_failed a).username = a.username := rfl

theorem increment_failed_username (a : Account) :
    (increment_failed a).username = a.username := rfl

theorem set_last_login_username (now : Nat) (a : Account) :
    (set_last_login now a).username = a.username := rfl

/-- A failed password check: the result is the invalid-credentials
failure and the store is the increment of the matched row. -/
theorem db_auth_wrong (st : DBState) (u pw : String) (now : Nat) (a : Account)
    (h1 : db_get_user st u = some a) (h2 : locked a now = false)
    (h3 : verify_password pw a.password_hash a.salt = false) :
    db_authenticate_user st u pw now =
      (⟨false, "Invalid credentials", .validation_error, none, none⟩,
       db_apply st a.id increment_failed) := by
  rw [db_authenticate_user, h1]
  simp [h2, h3]

/-- A successful password check: the result carries `user_id` and
`username`, and the store resets the counter, clears the lock and sets
`last_login` on the matched row. -/
theorem db_auth_right (st : DBState) (u pw : String) (now : Nat) (a : Account)
    (h1 : db_get_user st u = some a) (h2 : locked a now = false)
    (h3 : verify_password pw a.password_hash a.salt = true) :
    db_authenticate_user st u pw now =
      (⟨true, "Authentication successful", .success,
        some [("user_id", .n a.id), ("username", .s a.username)], none⟩,
       db_apply (db_apply st a.id reset_failed) a.id (set_last_login now)) := by
  rw [db_authenticate_user, h1]
  simp [h2, h3]

/-- After a failed check the matched account reappears with the counter
incremented and every other field unchanged. -/
theorem db_auth_wrong_get (st : DBState) (u pw : String) (now : Nat) (a : Account)
    (h1 : db_get_user st u = some a) (h2 : locked a now = false)
    (h3 : verify_password pw a.password_hash a.salt = false) :
    db_get_user (db_authenticate_user st u pw now).2 u =
      some { a with failed_login_attempts := a.failed_login_attempts + 1 } := by
  rw [db_auth_wrong st u pw now a h1 h2 h3]
  rw [show (db_apply st a.id increment_failed) =
        (db_apply st a.id increment_failed) from rfl]
  rw [db_get_user_db_apply st a.id increment_failed increment_failed_username u, h1]
  simp [increment_failed]

/-- After a successful check the matched account reappears with the
counter zeroed, the lock cleared and `last_login` set. -/
theorem db_auth_right_get (st : DBState) (u pw : String) (now : Nat) (a : Account)
    (h1 : db_get_user st u = some a) (h2 : locked a now = false)
    (h3 : verify_password pw a.password_hash a.salt = true) :
    db_get_user (db_authenticate_user st u pw now).2 u =
      some { a with failed_login_attempts := 0, account_locked_until := none,
                    last_login := some now } := by
  rw [db_auth_right st u pw now a h1 h2 h3]
  rw [db_get_user_db_apply _ a.id _ (set_last_login_username now) u]
  rw [db_get_user_db_apply st a.id reset_failed reset_failed_username u, h1]
  simp [reset_failed, set_last_login]

/-- A dictionary none of whose keys is `email`, `is_active` or
`password` contributes no setters. -/
theorem db_update_setters_unrecognized (fs : String) (d : Dict)
    (h : d.all (fun kv =>
      !(kv.1 == "email") && !(kv.1 == "is_active") && !(kv.1 == "password")) = true) :
    db_update_setters fs d = some [] := by
  induction d with
  | nil => rfl
  | cons kv rest ih =>
    rw [List.all_cons, Bool.and_eq_true] at h
    obtain ⟨hkv, hrest⟩ := h
    rw [Bool.and_eq_true, Bool.and_eq_true] at hkv
    obtain ⟨⟨he, ha⟩, hp⟩ := hkv
    rw [Bool.not_eq_true'] at he ha hp
    cases kv with
    | mk k v => simp only [db_update_setters, he, ha, hp] at ih ⊢
                simp [ih hrest]

set_option maxRecDepth 100000 in
set_option maxHeartbeats 2000000 in
/-- FIPS 180-4 test vector: the digest of the empty message. -/
theorem sha256_empty_vector :
    sha256hex [] =
      "e3b0c44298fc1c149afbf4c8996fb92427ae41e4649b934ca495991b7852b855" := by
  decide

set_option maxRecDepth 100000 in
set_option maxHeartbeats 2000000 in
/-- FIPS 180-4 test vector: the digest of the three bytes `abc`. -/
theorem sha256_abc_vector :
    sha256hex (strBytes "abc") =
      "ba7816bf8f01cfea414140de5dae2223b00361a396177a9cb410ff61f20015ad" := by
  decide

/-! ### The claims -/

/-- C1 (code_bug): the claim says that when the incremented
`failed_login_attempts` reaches the lockout threshold,
`account_locked_until` is set to now + lockout duration, so that a
subsequent correct-password `authenticate` fails while locked.  The code
has the lock *check* (`authenticate_user`) and the lock *clear*
(`_reset_failed_login_attempts`), but `_increment_failed_login_attempts`
only increments the counter and nothing in the repository ever assigns
`account_locked_until`.  Proved here: starting from any store whose
record for `u` is unlocked, `n` consecutive wrong-password calls leave
the record with counter increased by `n` and still no lock, and a
correct-password call then succeeds for every `n` and any time. -/
theorem c1_failed_attempts_never_lock (st : DBState) (u pw pr : String)
    (now later : Nat) (n : Nat) (a : Account)
    (h1 : db_get_user st u = some a) (h2 : a.account_locked_until = none)
    (h3 : verify_password pw a.password_hash a.salt = false)
    (h4 : verify_password pr a.password_hash a.salt = true) :
    db_get_user (auth_iter u pw now n st) u =
      some { a with failed_login_attempts := a.failed_login_attempts + n } ∧
    ((db_authenticate_user (auth_iter u pw now n st) u pr later).1).success = true := by
  induction n generalizing st a with
  | zero =>
    have hl : locked a later = false := by simp [locked, h2]
    refine ⟨by simpa using h1, ?_⟩
    rw [db_auth_right (auth_iter u pw now 0 st) u pr later a h1 hl h4]
  | succ n ih =>
    have hl : locked a now = false := by simp [locked, h2]
    have hstep := db_auth_wrong_get st u pw now a h1 hl h3
    have hrec := ih (db_authenticate_user st u pw now).2
      { a with failed_login_attempts := a.failed_login_attempts + 1 } hstep h2 h3 h4
    have harith : a.failed_login_attempts + (n + 1) =
        a.failed_login_attempts + 1 + n := by omega
    refine ⟨?_, hrec.2⟩
    rw [show auth_iter u pw now (n + 1) st =
          auth_iter u pw now n (db_authenticate_user st u pw now).2 from rfl,
        harith]
    exact hrec.1

set_option maxRecDepth 100000 in
set_option maxHeartbeats 2000000 in
/-- Witness for C1 at a concrete store: five wrong-password attempts on
`alice` leave the counter at 5 with no lock, and the correct password
then authenticates successfully. -/
theorem c1_failed_attempts_never_lock_witness :
    db_get_user (auth_iter "alice" "wrong" 50 5 aliceSt) "alice" =
      some { aliceAcct with failed_login_attempts := aliceAcct.failed_login_attempts + 5 } ∧
    ((db_authenticate_user (auth_iter "alice" "wrong" 50 5 aliceSt) "alice"
        "SecurePass1" 60).1).success = true :=
  c1_failed_attempts_never_lock aliceSt "alice" "wrong" "SecurePass1" 50 60 5 aliceAcct
    rfl rfl (by decide) (by decide)

set_option maxRecDepth 100000 in
set_option maxHeartbeats 2000000 in
/-- C2 (code_bug): the claim says `register` reports success only if the
store actually persisted the record, and that a store failure surfaces a
generic `storage_error` without internal error text.
`AuthManager.register_user` discards `create_user`'s boolean result;
composed with `DatabaseManager` the stored dictionary carries
`password_hash` but no plain `password`, so `create_user`'s validation
fails, nothing is inserted, and yet registration reports success (the
repository's own tests then expect the follow-up login to succeed).
Evaluated at the failing input: the result is a success whose message is
"User registered successfully" while the store is left empty. -/
theorem c2_register_success_without_persist :
    auth_register_user emptySt "testuser" "SecurePass123" 100 "ab12" =
      (⟨true, "User registered successfully", .success,
        some [("username", .s "testuser")]⟩, emptySt) ∧
    db_user_exists (auth_register_user emptySt "testuser" "SecurePass123" 100 "ab12").2
      "testuser" = false := by
  constructor
  · decide
  · decide

/-- C3 (confirmed): a wrong-password `authenticate_user` call on an
unlocked account fails with the invalid-credentials result (message
"Invalid credentials", the `VALIDATION_ERROR` tag) and leaves the
account with `failed_login_attempts` exactly one greater, all other
fields unchanged.  Accounts reachable from registration always have
`account_locked_until` absent (claim C1), which the hypothesis `h2`
captures. -/
theorem c3_wrong_password_increments_once (st : DBState) (u pw : String)
    (now : Nat) (a : Account)
    (h1 : db_get_user st u = some a) (h2 : a.account_locked_until = none)
    (h3 : verify_password pw a.password_hash a.salt = false) :
    ((db_authenticate_user st u pw now).1).success = false ∧
    ((db_authenticate_user st u pw now).1).message = "Invalid credentials" ∧
    ((db_authenticate_user st u pw now).1).result_type = .validation_error ∧
    db_get_user (db_authenticate_user st u pw now).2 u =
      some { a with failed_login_attempts := a.failed_login_attempts + 1 } := by
  have hl : locked a now = false := by simp [locked, h2]
  have hres := db_auth_wrong st u pw now a h1 hl h3
  have hget := db_auth_wrong_get st u pw now a h1 hl h3
  rw [hres] at hget ⊢
  exact ⟨rfl, rfl, rfl, hget⟩

set_option maxRecDepth 100000 in
set_option maxHeartbeats 2000000 in
/-- Witness for C3: guessing "wrong" against `alice` yields the
invalid-credentials message and a counter of exactly one. -/
theorem c3_wrong_password_increments_once_witness :
    ((db_authenticate_user aliceSt "alice" "wrong" 50).1).message =
      "Invalid credentials" ∧
    db_get_user (db_authenticate_user aliceSt "alice" "wrong" 50).2 "alice" =
      some { aliceAcct with failed_login_attempts :=
               aliceAcct.failed_login_attempts + 1 } :=
  ⟨(c3_wrong_password_increments_once aliceSt "alice" "wrong" 50 aliceAcct
      rfl rfl (by decide)).2.1,
   (c3_wrong_password_increments_once aliceSt "alice" "wrong" 50 aliceAcct
      rfl rfl (by decide)).2.2.2⟩

/-- C4 (corrected), counterexample: the claim says the in-memory and
SQLite stores behave identically, in particular that `update` ignores
unrecognized fields.  Updating an existing user with the single
unrecognized field `foo` returns `True` from the in-memory store (which
replaces the whole record) and `False` from the SQLite store (which
finds no recognized field). -/
theorem c4_counterexample :
    (mem_update_user memAliceSt "alice" [("foo", .n 1)]).1 = true ∧
    (db_update_user aliceSt "alice" [("foo", .n 1)] 60 "ab12").1 = false := by
  constructor
  · decide
  · decide

/-- C4 (corrected), amended: the two `update` implementations agree that
an unknown username yields `False`, but they are not equivalent: the
in-memory store returns `True` for every known username whatever the
fields (replacing the record wholesale), while the SQLite store applies
only `email` / `is_active` / `password` fields and returns `False` when
the dictionary contains none of them. -/
theorem c4_update_semantics (memSt : MemState) (dbSt : DBState) (u : String)
    (d : Dict) (now : Nat) (fs : String) :
    ((mem_update_user memSt u d).1 = mem_user_exists memSt u) ∧
    (db_user_exists dbSt u = false → (db_update_user dbSt u d now fs).1 = false) ∧
    ((db_update_user dbSt u d now fs).1 = true → db_user_exists dbSt u = true) ∧
    (d.all (fun kv =>
        !(kv.1 == "email") && !(kv.1 == "is_active") && !(kv.1 == "password")) = true →
      (db_update_user dbSt u d now fs).1 = false) := by
  refine ⟨?_, ?_, ?_, ?_⟩
  · by_cases h : (mem_lookup memSt (.s u)).isSome <;>
      simp [mem_update_user, mem_user_exists, h]
  · intro h
    cases hg : db_get_user dbSt u with
    | none => simp [db_update_user, hg]
    | some a => rw [db_user_exists, hg] at h; simp at h
  · intro h
    rw [db_user_exists]
    cases hg : db_get_user dbSt u with
    | none => rw [db_update_user, hg] at h; cases h
    | some a => rfl
  · intro h
    cases hg : db_get_user dbSt u with
    | none => simp [db_update_user, hg]
    | some a => simp [db_update_user, hg, db_update_setters_unrecognized fs d h]

/-- Witness for C4's amended statement: a dictionary with only the
unrecognized field `foo` makes the SQLite `update_user` return `False`
even though the user exists. -/
theorem c4_update_semantics_witness :
    (db_update_user profileSt "dave" [("foo", .n 1)] 60 "ab").1 = false :=
  (c4_update_semantics memAliceSt profileSt "dave" [("foo", .n 1)] 60 "ab").2.2.2
    (by decide)

/-- C5 (confirmed): on an account whose `account_locked_until` lies in
the future, `authenticate_user` returns the temporarily-locked failure
and the store unchanged, and the result is the same for *every* supplied
password (`pw` is universally quantified and never reaches
`_verify_password`): the password check does not run while locked. -/
theorem c5_locked_skips_password_check (st : DBState) (u pw : String)
    (now t : Nat) (a : Account)
    (h1 : db_get_user st u = some a) (h2 : a.account_locked_until = some t)
    (h3 : now < t) :
    db_authenticate_user st u pw now =
      (⟨false, "Account is temporarily locked", .validation_error, none, none⟩, st) := by
  rw [db_authenticate_user, h1]
  have hl : locked a now = true := by simp [locked, h2, h3]
  simp [hl]

/-- Witness for C5: the locked account `bob` rejects even a plausible
password with the locked message, leaving the store untouched. -/
theorem c5_locked_skips_password_check_witness :
    db_authenticate_user lockedSt "bob" "AnyPassword1" 50 =
      (⟨false, "Account is temporarily locked", .validation_error, none, none⟩,
       lockedSt) :=
  c5_locked_skips_password_check lockedSt "bob" "AnyPassword1" 50 100 lockedAcct
    rfl rfl (by decide)

set_option maxRecDepth 100000 in
set_option maxHeartbeats 4000000 in
/-- C6 (corrected), counterexample: the claim says a successful
`authenticate` returns a payload containing *only* the username.  At a
concrete unlocked account the success payload is
`{'user_id': ..., 'username': ...}` — the numeric id is included, so the
payload is not only the username (it still never contains the hash). -/
theorem c6_counterexample :
    (db_authenticate_user aliceSt "alice" "SecurePass1" 50).1 =
      ⟨true, "Authentication successful", .success,
       some [("user_id", .n 1), ("username", .s "alice")], none⟩ := by
  decide

/-- C6 (corrected), amended: on an account that is not currently locked
(`account_locked_until` absent or expired), authenticating with the
correct password succeeds, returns the payload holding exactly
`user_id` and `username` (never hash or salt), resets
`failed_login_attempts` to 0, clears `account_locked_until` (so an
expired lock is lazily erased) and sets `last_login` to now. -/
theorem c6_success_resets_and_stamps (st : DBState) (u pw : String)
    (now : Nat) (a : Account)
    (h1 : db_get_user st u = some a) (h2 : locked a now = false)
    (h3 : verify_password pw a.password_hash a.salt = true) :
    ((db_authenticate_user st u pw now).1).success = true ∧
    ((db_authenticate_user st u pw now).1).message = "Authentication successful" ∧
    ((db_authenticate_user st u pw now).1).data =
      some [("user_id", .n a.id), ("username", .s a.username)] ∧
    db_get_user (db_authenticate_user st u pw now).2 u =
      some { a with failed_login_attempts := 0, account_locked_until := none,
                    last_login := some now } := by
  have hres := db_auth_right st u pw now a h1 h2 h3
  have hget := db_auth_right_get st u pw now a h1 h2 h3
  rw [hres] at hget ⊢
  exact ⟨rfl, rfl, rfl, hget⟩

set_option maxRecDepth 100000 in
set_option maxHeartbeats 2000000 in
/-- Witness for C6's amended statement: authenticating `alice` with an
expired lock in place succeeds, clears the lock and stamps
`last_login`. -/
theorem c6_success_resets_and_stamps_witness :
    db_get_user (db_authenticate_user aliceExpiredSt "alice" "SecurePass1" 50).2
        "alice" =
      some { aliceExpiredAcct with
              failed_login_attempts := 0,
              account_locked_until := none,
              last_login := some 50 } := by
  have h := c6_success_resets_and_stamps aliceExpiredSt "alice" "SecurePass1" 50
    aliceExpiredAcct rfl (by decide) (by decide)
  exact h.2.2.2

/-- C7 (corrected), counterexample: the claim says `get_profile` returns
exactly the fields username, created_at, email, is_active and
last_login.  At an account with every optional field populated the
returned payload has exactly the keys `username` and `created_at`; in
particular `email` is absent. -/
theorem c7_counterexample :
    ((auth_get_user_data profileSt "dave").user_data).map (List.map Prod.fst) =
      some ["username", "created_at"] ∧
    (((auth_get_user_data profileSt "dave").user_data).bind
      fun d => dget d "email") = none := by
  constructor
  · decide
  · decide

/-- C7 (corrected), amended: for a valid username and a stored account,
`get_user_data` succeeds with the payload holding exactly `username` and
`created_at` — never `password_hash`, `salt`, lockout internals, or the
claimed `email` / `is_active` / `last_login` fields. -/
theorem c7_profile_two_fields (st : DBState) (u : String) (a : Account)
    (h1 : validate_username u = true) (h2 : db_get_user st u = some a) :
    auth_get_user_data st u =
      ⟨true, "User data retrieved successfully", .success,
       some [("username", .s a.username), ("created_at", .n a.created_at)]⟩ := by
  simp only [auth_get_user_data, h1, h2, Bool.not_true, Bool.false_eq_true,
    if_false]
  rfl

/-- Witness for C7's amended statement at the concrete populated
account. -/
theorem c7_profile_two_fields_witness :
    auth_get_user_data profileSt "dave" =
      ⟨true, "User data retrieved successfully", .success,
       some [("username", .s "dave"), ("created_at", .n 20)]⟩ :=
  c7_profile_two_fields profileSt "dave" profileAcct (by decide) rfl

/-- The hasher round trip: `hash(p)` with salt `s` yields
`(s, hex SHA-256 of p||s)`, `verify(p, h, s)` recomputes that digest and
compares for exact equality, so the matching pair always verifies and a
password whose digest string differs from the stored one never does. -/
theorem hash_verify_roundtrip (p q salt : String) :
    (hash_password p salt).1 = salt ∧
    (hash_password p salt).2 = sha256hex (strBytes (p ++ salt)) ∧
    verify_password p (hash_password p salt).2 salt = true ∧
    (sha256hex (strBytes (q ++ salt)) ≠ sha256hex (strBytes (p ++ salt)) →
      verify_password q (hash_password p salt).2 salt = false) := by
  refine ⟨rfl, rfl, ?_, ?_⟩
  · simp [verify_password, hash_password]
  · intro hne
    simp [verify_password, hash_password, hne]

set_option maxRecDepth 100000 in
set_option maxHeartbeats 2000000 in
/-- A concrete mismatch: a wrong password fails to verify against the
stored pair. -/
theorem hash_verify_mismatch_concrete :
    verify_password "SecurePass1" (hash_password "SecurePass2" "ab").2 "ab" = false := by
  decide

set_option maxRecDepth 100000 in
set_option maxHeartbeats 2000000 in
/-- C9 (corrected), counterexample: the claim requires a digit alongside
the explicitly ASCII letter classes, but the code's digit rule is
`re.search(r'\d', password)`, and Python `\d` on a `str` also matches
non-ASCII Unicode decimal digits.  The 8-character password
`Aa٣٣٣٣٣٣` (capital A, small a, six Arabic-Indic digits U+0663) has an
upper-case and a lower-case ASCII letter and no ASCII digit `[0-9]` at
all, yet `validate_password` accepts it. -/
theorem c9_counterexample :
    (validate_password "Aa٣٣٣٣٣٣").valid = true ∧
    "Aa٣٣٣٣٣٣".length = 8 ∧
    "Aa٣٣٣٣٣٣".data.any isUpperAZ = true ∧
    "Aa٣٣٣٣٣٣".data.any isLowerAZ = true ∧
    "Aa٣٣٣٣٣٣".data.any isDigit09 = false := by
  decide

/-- C9 (corrected), amended: `validate_password` accepts exactly the
strings of length 8 to 128 holding at least one ASCII upper-case letter,
one ASCII lower-case letter and one Unicode decimal digit (the `\d`
class: ASCII `[0-9]` and the non-ASCII decimal digits), and on rejection
its message is the one of the first violated rule in the order
missing/empty, too short, too long, missing uppercase, missing
lowercase, missing digit — `specFirstViolation` being written from the
specification's wording of that order. -/
theorem c9_password_policy (s : String) :
    ((validate_password s).valid = true ↔
      (8 ≤ s.length ∧ s.length ≤ 128 ∧ s.data.any isUpperAZ = true ∧
       s.data.any isLowerAZ = true ∧ s.data.any isDigitRe = true)) ∧
    (validate_password s).message =
      ((specFirstViolation s).map specRuleMessage).getD "Password is strong" := by
  by_cases h0 : s.length = 0 <;>
    by_cases h1 : s.length < 8 <;>
      by_cases h2 : 128 < s.length <;>
        by_cases h3 : s.data.any isUpperAZ = true <;>
          by_cases h4 : s.data.any isLowerAZ = true <;>
            by_cases h5 : s.data.any isDigitRe = true <;>
              (simp [validate_password, specFirstViolation, pwViolates,
                 List.find?, specRuleMessage, h0, h1, h2, h3, h4, h5];
               try omega)

/-- C10 (confirmed): `authenticate_user` never consults `is_active`: on
a soft-deleted (`is_active = false`) yet unlocked account the correct
password authenticates successfully, stamps `last_login` and resets the
counter, and the account stays inactive. -/
theorem c10_inactive_account_authenticates (st : DBState) (u pw : String)
    (now : Nat) (a : Account)
    (h1 : db_get_user st u = some a) (hact : a.is_active = false)
    (h2 : locked a now = false)
    (h3 : verify_password pw a.password_hash a.salt = true) :
    ((db_authenticate_user st u pw now).1).success = true ∧
    db_get_user (db_authenticate_user st u pw now).2 u =
      some { a with failed_login_attempts := 0, account_locked_until := none,
                    last_login := some now } ∧
    (db_get_user (db_authenticate_user st u pw now).2 u).map Account.is_active =
      some false := by
  have hres := db_auth_right st u pw now a h1 h2 h3
  have hget := db_auth_right_get st u pw now a h1 h2 h3
  refine ⟨by rw [hres], hget, ?_⟩
  rw [hget]
  simpa using hact

set_option maxRecDepth 100000 in
set_option maxHeartbeats 2000000 in
/-- Witness for C10: the deactivated account `carol` logs in with the
correct password and remains deactivated. -/
theorem c10_inactive_account_authenticates_witness :
    ((db_authenticate_user inactiveSt "carol" "SecurePass1" 70).1).success = true ∧
    (db_get_user (db_authenticate_user inactiveSt "carol" "SecurePass1" 70).2
        "carol").map Account.is_active = some false :=
  ⟨(c10_inactive_account_authenticates inactiveSt "carol" "SecurePass1" 70
      inactiveAcct rfl rfl rfl (by decide)).1,
   (c10_inactive_account_authenticates inactiveSt "carol" "SecurePass1" 70
      inactiveAcct rfl rfl rfl (by decide)).2.2⟩

end UserAuth
